import Mathlib

/-!
Verification of the chargeapp EMS backend (src/backend/src).

The Rust sources are shallowly embedded: `f32` quantities become `ℚ`,
machine integers become `ℕ`/`ℤ` with explicit saturation and wrap-around,
fallible operations become `Except`, and the CAN/Modbus transports are
represented by their observable inputs (received frames / register lists)
and outputs (written register values / emitted command lists).
-/

namespace ChargeApp

/-- Error kinds of `std::io::ErrorKind` / `ModbusError` used by the devices. -/
inductive DevError where
  | invalidData
  | notConnected
  | connectionFailed
  | otherErr
  deriving DecidableEq, Repr

/-- Truncation toward zero, the rounding of Rust `as`-casts from float to int. -/
def ratTrunc (q : ℚ) : ℤ :=
  if q < 0 then -(Int.floor (-q)) else Int.floor q

/-- Saturating cast to an integer range, as Rust float-to-int `as`-casts saturate. -/
def satCast (lo hi : ℤ) (q : ℚ) : ℤ :=
  max lo (min hi (ratTrunc q))

/-- Rust `(x) as u8` from f32. -/
def toU8sat (q : ℚ) : ℕ := (satCast 0 255 q).toNat

/-- Rust `(x) as u16` from f32. -/
def toU16sat (q : ℚ) : ℕ := (satCast 0 65535 q).toNat

/-- Rust `(x) as i16` from f32. -/
def toI16sat (q : ℚ) : ℤ := satCast (-32768) 32767 q

/-- Rust `x.clamp(lo, hi)` on floats. -/
def qclamp (lo hi q : ℚ) : ℚ := min hi (max lo q)

/-- Big-endian bytes of a `u16` (Rust `u16::to_be_bytes`). -/
def u16be (n : ℕ) : List ℕ := [n / 256 % 256, n % 256]

/-- Big-endian bytes of an `i16` in two's complement (Rust `i16::to_be_bytes`). -/
def i16be (z : ℤ) : List ℕ := u16be (z.emod 65536).toNat

/-- Rust `u16::from_be_bytes([a, b])`. -/
def u16of (a b : ℕ) : ℕ := 256 * a + b

/-- Rust `i16::from_be_bytes([a, b])`: two's-complement reinterpretation. -/
def i16of (a b : ℕ) : ℤ :=
  let n := u16of a b
  if n < 32768 then (n : ℤ) else (n : ℤ) - 65536

/-- Rust `u32::from_be_bytes([a, b, c, d])`. -/
def u32of (a b c d : ℕ) : ℕ := ((a * 256 + b) * 256 + c) * 256 + d

/-- A CAN data frame: standard identifier and payload (already cut to its DLC). -/
structure CanFrame where
  id : ℕ
  data : List ℕ
  deriving DecidableEq, Repr

/-! ## Battery device (src/backend/src/devices/bms.rs) -/

/-- `types.rs::BatteryStatus`. -/
structure BatteryStatus where
  soc : ℚ
  voltage : ℚ
  current : ℚ
  temperature : ℚ
  sop_charge : ℚ
  sop_discharge : ℚ
  deriving DecidableEq, Repr

/-- `BatteryStatus::default()`: all fields zero. -/
def batteryStatusDefault : BatteryStatus := ⟨0, 0, 0, 0, 0, 0⟩

/-- `types.rs::BatteryCellStatus`. -/
structure BatteryCellStatus where
  cell_count : ℕ
  max_cell_voltage : ℚ
  min_cell_voltage : ℚ
  max_cell_temperature : ℚ
  min_cell_temperature : ℚ
  working_time : ℕ
  cycle_count : ℕ
  health_percentage : ℚ
  deriving DecidableEq, Repr

/-- `BatteryCellStatus::default()`: all fields zero. -/
def batteryCellStatusDefault : BatteryCellStatus := ⟨0, 0, 0, 0, 0, 0, 0, 0⟩

/-- The mutable cached fields of `BatteryDevice` (bms.rs lines 14-20). -/
structure BatteryCache where
  voltage : ℚ
  current : ℚ
  soc : ℚ
  temperature : ℚ
  capacity : ℚ
  sop_charge : ℚ
  sop_discharge : ℚ
  deriving DecidableEq, Repr

/-- A fresh `BatteryDevice` cache (`Default`): all zeros. -/
def batteryCacheInit : BatteryCache := ⟨0, 0, 0, 0, 0, 0, 0⟩

/-- `BatteryDevice::pack_battery_status` (bms.rs 43-60): clamp each field,
scale by 100, cast (`soc` to `u8`, voltage/sops to `u16`, current/temp to
`i16`), and serialize big-endian. -/
def pack_battery_status (s : BatteryStatus) : List ℕ :=
  let soc := toU8sat (qclamp 0 100 s.soc * 100)
  let voltage := toU16sat (qclamp 0 500 s.voltage * 100)
  let current := toI16sat (qclamp (-300) 300 s.current * 100)
  let temp := toI16sat (qclamp (-50) 50 s.temperature * 100)
  let sopC := toU16sat (qclamp 0 100 s.sop_charge * 100)
  let sopD := toU16sat (qclamp 0 100 s.sop_discharge * 100)
  [soc] ++ u16be voltage ++ i16be current ++ i16be temp ++ u16be sopC ++ u16be sopD

/-- `BatteryDevice::unpack_battery_status` (bms.rs 64-82): payloads shorter
than 11 bytes yield `BatteryStatus::default()`; otherwise each field is
decoded big-endian and divided by 100. -/
def unpack_battery_status (data : List ℕ) : BatteryStatus :=
  if data.length < 11 then batteryStatusDefault
  else
    { soc := (data.getD 0 0 : ℚ) / 100
      voltage := (u16of (data.getD 1 0) (data.getD 2 0) : ℚ) / 100
      current := (i16of (data.getD 3 0) (data.getD 4 0) : ℚ) / 100
      temperature := (i16of (data.getD 5 0) (data.getD 6 0) : ℚ) / 100
      sop_charge := (u16of (data.getD 7 0) (data.getD 8 0) : ℚ) / 100
      sop_discharge := (u16of (data.getD 9 0) (data.getD 10 0) : ℚ) / 100 }

/-- `BatteryDevice::read_status` (bms.rs 84-102), given the transport outcome
of the request/response exchange: a reply on id 0x101 is unpacked, any other
data frame is `InvalidData`. -/
def batteryReadStatus (recv : Except DevError CanFrame) : Except DevError BatteryStatus :=
  match recv with
  | .error e => .error e
  | .ok f => if f.id = 0x101 then .ok (unpack_battery_status f.data) else .error .invalidData

/-- `BatteryDevice::read_status` with the cache threaded through: the method
takes `&self`, so the cached fields are never written. -/
def batteryReadStatusC (recv : Except DevError CanFrame) (c : BatteryCache) :
    Except DevError BatteryStatus × BatteryCache :=
  (batteryReadStatus recv, c)

/-- `BatteryDevice::write_status` (bms.rs 104-115): pack, reject payloads
over 8 bytes with `InvalidData`, otherwise emit frame 0x102. -/
def batteryWriteStatus (connected : Bool) (s : BatteryStatus) : Except DevError CanFrame :=
  if connected then
    let data := pack_battery_status s
    if data.length > 8 then .error .invalidData
    else .ok ⟨0x102, data⟩
  else .error .notConnected

/-- `BatteryDevice::unpack_battery_cell_status` (bms.rs 170-193): payloads
shorter than 18 bytes yield `BatteryCellStatus::default()`. -/
def unpack_battery_cell_status (data : List ℕ) : BatteryCellStatus :=
  if data.length < 18 then batteryCellStatusDefault
  else
    { cell_count := u16of (data.getD 0 0) (data.getD 1 0)
      max_cell_voltage := (u16of (data.getD 2 0) (data.getD 3 0) : ℚ) / 10000
      min_cell_voltage := (u16of (data.getD 4 0) (data.getD 5 0) : ℚ) / 10000
      max_cell_temperature := (u16of (data.getD 6 0) (data.getD 7 0) : ℚ) / 100 - 50
      min_cell_temperature := (u16of (data.getD 8 0) (data.getD 9 0) : ℚ) / 100 - 50
      working_time := u32of (data.getD 10 0) (data.getD 11 0) (data.getD 12 0) (data.getD 13 0)
      cycle_count := u16of (data.getD 14 0) (data.getD 15 0)
      health_percentage := (u16of (data.getD 16 0) (data.getD 17 0) : ℚ) / 100 }

/-- `BatteryDevice::read_cell_status` (bms.rs 125-143): a reply on id 0x104 is
unpacked, any other data frame is `InvalidData`. -/
def batteryCellReadStatus (recv : Except DevError CanFrame) : Except DevError BatteryCellStatus :=
  match recv with
  | .error e => .error e
  | .ok f => if f.id = 0x104 then .ok (unpack_battery_cell_status f.data) else .error .invalidData

/-! ## Charger device (src/backend/src/devices/charger.rs) -/

/-- `types.rs::ChargerStatus`. -/
structure ChargerStatus where
  charging : Bool
  power : ℚ
  voltage : ℚ
  current : ℚ
  temperature : ℚ
  efficiency : ℚ
  fault : Bool
  fault_codes : List ℕ
  deriving DecidableEq, Repr

/-- `ChargerStatus::default()`. -/
def chargerStatusDefault : ChargerStatus := ⟨false, 0, 0, 0, 0, 0, false, []⟩

/-- The byte string built by `ChargerDevice::pack_charger_status`
(charger.rs 121-145) before the size check: a 12-byte base followed by the
first `min(len, 2)` fault codes (`&status.fault_codes[..fault_count]`),
two bytes each. -/
def packChargerBytes (s : ChargerStatus) : List ℕ :=
  let charging := if s.charging then 1 else 0
  let power := toU16sat (qclamp 0 100 s.power * 10)
  let voltage := toU16sat (qclamp 0 1000 s.voltage * 10)
  let current := toU16sat (qclamp 0 200 s.current * 10)
  let temp := toI16sat (qclamp (-50) 100 s.temperature * 100)
  let efficiency := toU8sat (qclamp 0 100 s.efficiency)
  let fault := if s.fault then 1 else 0
  let fault_count := min s.fault_codes.length 2
  let codes : List ℕ :=
    match s.fault_codes with
    | [] => []
    | [a] => u16be a
    | a :: b :: _ => u16be a ++ u16be b
  [charging] ++ u16be power ++ u16be voltage ++ u16be current ++ i16be temp ++
    [efficiency, fault, fault_count] ++ codes

/-- `ChargerDevice::pack_charger_status` (charger.rs 121-151): build the byte
string, then reject it with `InvalidData` when it exceeds
`MAX_CAN_DATA_SIZE = 8`. -/
def pack_charger_status (s : ChargerStatus) : Except DevError (List ℕ) :=
  let data := packChargerBytes s
  if data.length > 8 then .error .invalidData else .ok data

/-- The fault-code loop of `unpack_charger_status` (charger.rs 171-179):
`fault_count` iterations, each read only when two more bytes are in range. -/
def chargerCodesFrom (data : List ℕ) : ℕ → ℕ → List ℕ
  | _, 0 => []
  | offset, n + 1 =>
    if offset + 2 ≤ data.length then
      u16of (data.getD offset 0) (data.getD (offset + 1) 0) ::
        chargerCodesFrom data (offset + 2) n
    else
      chargerCodesFrom data offset n

/-- `ChargerDevice::unpack_charger_status` (charger.rs 157-191): `None` on
payloads shorter than 12 bytes, otherwise field-wise big-endian decode with
the source's post-clamps. -/
def unpack_charger_status (data : List ℕ) : Option ChargerStatus :=
  if data.length < 12 then none
  else
    some
      { charging := data.getD 0 0 ≠ 0
        power := max ((u16of (data.getD 1 0) (data.getD 2 0) : ℚ) / 10) 0
        voltage := max ((u16of (data.getD 3 0) (data.getD 4 0) : ℚ) / 10) 0
        current := max ((u16of (data.getD 5 0) (data.getD 6 0) : ℚ) / 10) 0
        temperature := qclamp (-50) 100 ((i16of (data.getD 7 0) (data.getD 8 0) : ℚ) / 100)
        efficiency := qclamp 0 100 (data.getD 9 0 : ℚ)
        fault := data.getD 10 0 ≠ 0
        fault_codes := chargerCodesFrom data 12 (min (data.getD 11 0) 2) }

/-- The cached fields of `ChargerDevice` (charger.rs 18-25). -/
structure ChargerCache where
  charging : Bool
  power : ℚ
  voltage : ℚ
  current : ℚ
  temperature : ℚ
  efficiency : ℚ
  fault : Bool
  fault_codes : List ℕ
  deriving DecidableEq, Repr

/-- `ChargerDevice::update_cache` (charger.rs 88-97): copy every field. -/
def chargerUpdateCache (_c : ChargerCache) (s : ChargerStatus) : ChargerCache :=
  { charging := s.charging
    power := s.power
    voltage := s.voltage
    current := s.current
    temperature := s.temperature
    efficiency := s.efficiency
    fault := s.fault
    fault_codes := s.fault_codes }

/-- `ChargerDevice::get_cached_status` (charger.rs 325-336). -/
def chargerGetCachedStatus (c : ChargerCache) : ChargerStatus :=
  { charging := c.charging
    power := c.power
    voltage := c.voltage
    current := c.current
    temperature := c.temperature
    efficiency := c.efficiency
    fault := c.fault
    fault_codes := c.fault_codes }

/-- `ChargerDevice::read_status` (charger.rs 264-296): validate the response
id (0x201), unpack (`None` becomes `InvalidData`), and update the cache only
on success. -/
def chargerReadStatus (recv : Except DevError CanFrame) (c : ChargerCache) :
    Except DevError ChargerStatus × ChargerCache :=
  match recv with
  | .error e => (.error e, c)
  | .ok f =>
    if f.id = 0x201 then
      match unpack_charger_status f.data with
      | none => (.error .invalidData, c)
      | some st => (.ok st, chargerUpdateCache c st)
    else (.error .invalidData, c)

/-! ## PV DC-DC device (src/backend/src/devices/pv_dcdc.rs) -/

/-- `pv_dcdc.rs::PvMode`. -/
inductive PvMode where
  | Standby
  | MPPT
  | ConstantVoltage
  | ConstantCurrent
  | Fault
  deriving DecidableEq, Repr

/-- `types.rs::PvStatus`. -/
structure PvStatus where
  voltage : ℚ
  current : ℚ
  power : ℚ
  temperature : ℚ
  efficiency : ℚ
  fault : Bool
  deriving DecidableEq, Repr

/-- The cached fields of `PvDevice` (pv_dcdc.rs 27-36). -/
structure PvCache where
  voltage : ℚ
  current : ℚ
  power : ℚ
  temperature : ℚ
  efficiency : ℚ
  mode : PvMode
  fault : Bool
  fault_codes : List ℕ
  irradiance : ℚ
  mppt_voltage : ℚ
  deriving DecidableEq, Repr

/-- A fresh `PvDevice` cache (`Default`). -/
def pvCacheInit : PvCache := ⟨0, 0, 0, 0, 0, .Standby, false, [], 0, 0⟩

/-- `PvDevice::read_status` (pv_dcdc.rs 72-119), given the outcome of
`read_holding_registers(1, 7)`: scale registers, decode mode and fault, and
update every cached field; on transport error nothing is touched. -/
def pvReadStatus (regs? : Except DevError (List ℕ)) (c : PvCache) :
    Except DevError PvStatus × PvCache :=
  match regs? with
  | .error e => (.error e, c)
  | .ok regs =>
    let voltage := (regs.getD 0 0 : ℚ) / 10
    let current := (regs.getD 1 0 : ℚ) / 10
    let power := (regs.getD 2 0 : ℚ) / 10
    let temperature := ((regs.getD 3 0 : ℚ) - 500) / 10
    let efficiency := (regs.getD 4 0 : ℚ) / 100
    let mode : PvMode :=
      match regs.getD 5 0 with
      | 0 => .Standby
      | 1 => .MPPT
      | 2 => .ConstantVoltage
      | 3 => .ConstantCurrent
      | 4 => .Fault
      | _ => .Standby
    let fault := regs.getD 6 0 ≠ 0
    (.ok ⟨voltage, current, power, temperature, efficiency, fault⟩,
      { voltage, current, power, temperature, efficiency, mode, fault,
        fault_codes := [], irradiance := 0, mppt_voltage := 0 })

/-- `PvDevice::get_cached_status` (pv_dcdc.rs 122-131). -/
def pvGetCachedStatus (c : PvCache) : PvStatus :=
  ⟨c.voltage, c.current, c.power, c.temperature, c.efficiency, c.fault⟩

/-- `PvDevice::set_power_setpoint` (pv_dcdc.rs 175-186): clamp to
[0, 10000] W, scale by 10, cast to `u16`, write register 11. The result is
the (address, value) pair handed to `write_single_register`. -/
def pvSetPowerSetpoint (p : ℚ) : ℕ × ℕ :=
  (11, toU16sat (qclamp 0 10000 p * 10))

/-! ## Generator device (src/backend/src/devices/genset.rs) -/

/-- `types.rs::GensetStatus`. -/
structure GensetStatus where
  running : Bool
  power_output : ℚ
  fuel_level : ℚ
  voltage : ℚ
  current : ℚ
  frequency : ℚ
  engine_hours : ℕ
  temperature : ℚ
  deriving DecidableEq, Repr

/-- The cached fields of `GensetDevice` (genset.rs 13-20). -/
structure GensetCache where
  running : Bool
  power_output : ℚ
  fuel_level : ℚ
  voltage : ℚ
  current : ℚ
  frequency : ℚ
  engine_hours : ℕ
  temperature : ℚ
  deriving DecidableEq, Repr

/-- `GensetDevice::read_status` (genset.rs 63-106), given the outcomes of
`read_coils(0, 1)` and `read_holding_registers(1, 8)`: either failure aborts
before any cache write; on success every cached field is updated. -/
def gensetReadStatus (coils? : Except DevError (List Bool))
    (regs? : Except DevError (List ℕ)) (c : GensetCache) :
    Except DevError GensetStatus × GensetCache :=
  match coils? with
  | .error e => (.error e, c)
  | .ok coils =>
    match regs? with
    | .error e => (.error e, c)
    | .ok regs =>
      let running := coils.getD 0 false
      let power_output := (regs.getD 0 0 : ℚ) / 10
      let fuel_level := (regs.getD 1 0 : ℚ) / 100
      let voltage := (regs.getD 2 0 : ℚ) / 10
      let current := (regs.getD 3 0 : ℚ) / 10
      let frequency := (regs.getD 4 0 : ℚ) / 10
      let engine_hours :=
        if 7 ≤ regs.length then Nat.lor (Nat.shiftLeft (regs.getD 5 0) 16) (regs.getD 6 0)
        else 0
      let temperature := (regs.getD 7 0 : ℚ) / 10
      (.ok ⟨running, power_output, fuel_level, voltage, current, frequency,
          engine_hours, temperature⟩,
        ⟨running, power_output, fuel_level, voltage, current, frequency,
          engine_hours, temperature⟩)

/-- `GensetDevice::get_cached_status` (genset.rs 109-120). -/
def gensetGetCachedStatus (c : GensetCache) : GensetStatus :=
  ⟨c.running, c.power_output, c.fuel_level, c.voltage, c.current, c.frequency,
    c.engine_hours, c.temperature⟩

/-- `GensetDevice::start_engine` (genset.rs 131-141): write coil 1 true; on
success set only the cached `running` flag. -/
def gensetStartEngine (w : Except DevError Unit) (c : GensetCache) :
    Except DevError Unit × GensetCache :=
  match w with
  | .error e => (.error e, c)
  | .ok _ => (.ok (), { c with running := true })

/-- `GensetDevice::stop_engine` (genset.rs 147-157): write coil 1 false; on
success clear only the cached `running` flag. -/
def gensetStopEngine (w : Except DevError Unit) (c : GensetCache) :
    Except DevError Unit × GensetCache :=
  match w with
  | .error e => (.error e, c)
  | .ok _ => (.ok (), { c with running := false })

/-! ## PCS device (src/backend/src/devices/pcs.rs) -/

/-- `pcs.rs::PcsMode`. -/
inductive PcsMode where
  | Standby
  | Charging
  | Discharging
  | GridTie
  | OffGrid
  | Fault
  deriving DecidableEq, Repr

/-- `types.rs::PcsStatus`: mode is a string in the source. -/
structure PcsStatus where
  mode : String
  power : ℚ
  deriving DecidableEq, Repr

/-- The mode-register decode of `PcsDevice::read_status` (pcs.rs 77-85). -/
def pcsModeString (n : ℕ) : String :=
  match n with
  | 0 => "Standby"
  | 1 => "Charging"
  | 2 => "Discharging"
  | 3 => "GridTie"
  | 4 => "OffGrid"
  | 5 => "Fault"
  | _ => "Unknown"

/-- The string-to-enum match of `PcsDevice::read_status` (pcs.rs 98-106):
anything unrecognized falls back to `Standby`. -/
def strToPcsMode (s : String) : PcsMode :=
  if s = "Standby" then .Standby
  else if s = "Charging" then .Charging
  else if s = "Discharging" then .Discharging
  else if s = "GridTie" then .GridTie
  else if s = "OffGrid" then .OffGrid
  else if s = "Fault" then .Fault
  else .Standby

/-- Rust `format!` on the `PcsMode` enum (`Debug` derive). -/
def pcsModeLabel (m : PcsMode) : String :=
  match m with
  | .Standby => "Standby"
  | .Charging => "Charging"
  | .Discharging => "Discharging"
  | .GridTie => "GridTie"
  | .OffGrid => "OffGrid"
  | .Fault => "Fault"

/-- The cached fields of `PcsDevice` (pcs.rs 15-25). -/
structure PcsCache where
  power_active : ℚ
  power_reactive : ℚ
  voltage_ac : ℚ
  current_ac : ℚ
  voltage_dc : ℚ
  current_dc : ℚ
  frequency : ℚ
  efficiency : ℚ
  mode : PcsMode
  fault : Bool
  fault_codes : List ℕ
  deriving DecidableEq, Repr

/-- A fresh `PcsDevice` cache (`Default`). -/
def pcsCacheInit : PcsCache := ⟨0, 0, 0, 0, 0, 0, 0, 0, .Standby, false, []⟩

/-- `PcsDevice::read_status` (pcs.rs 71-114), given the outcome of
`read_holding_registers(1, 2)`: the mode register maps through a string
table, the power register is divided by 10 as an unsigned value, and the
cached fields are overwritten. -/
def pcsReadStatus (regs? : Except DevError (List ℕ)) (c : PcsCache) :
    Except DevError PcsStatus × PcsCache :=
  match regs? with
  | .error e => (.error e, c)
  | .ok regs =>
    let modeStr := pcsModeString (regs.getD 0 0)
    let power := (regs.getD 1 0 : ℚ) / 10
    (.ok ⟨modeStr, power⟩,
      { power_active := power, power_reactive := 0, voltage_ac := 0, current_ac := 0,
        voltage_dc := 0, current_dc := 0, frequency := 0, efficiency := 0,
        mode := strToPcsMode modeStr,
        fault := modeStr = "Fault",
        fault_codes := [] })

/-- `PcsDevice::get_cached_status` (pcs.rs 117-122). -/
def pcsGetCachedStatus (c : PcsCache) : PcsStatus :=
  ⟨pcsModeLabel c.mode, c.power_active⟩

/-! ## EMS controller (src/backend/src/ems_core.rs) -/

/-- `ems_core.rs::EmsConfig`. -/
structure EmsConfig where
  battery_soc_threshold : ℚ
  max_charger_power : ℚ
  num_charging_stations : ℕ
  control_interval : ℕ
  deriving DecidableEq, Repr

/-- `ems_core.rs::EmsMode`. -/
inductive EmsMode where
  | Normal
  | PeakShaving
  | Emergency
  | Fault
  deriving DecidableEq, Repr

/-- Rust `format!` on `EmsMode` (`Debug` derive). -/
def emsModeLabel (m : EmsMode) : String :=
  match m with
  | .Normal => "Normal"
  | .PeakShaving => "PeakShaving"
  | .Emergency => "Emergency"
  | .Fault => "Fault"

/-- `types.rs::EmsStatus`. -/
structure EmsStatus where
  total_generation : ℚ
  total_consumption : ℚ
  power_balance : ℚ
  grid_power : ℚ
  battery_power : ℚ
  generator_power : ℚ
  pv_power : ℚ
  charger_power : ℚ
  active_chargers : ℕ
  system_mode : String
  system_healthy : Bool
  faults : List String
  deriving DecidableEq, Repr

/-- A device write issued while balancing: PCS mode/setpoint writes, the
generator start coil, and per-charger power setpoints (by position in the
controller's charger list). -/
inductive Cmd where
  | pcsSetMode (m : PcsMode)
  | pcsSetPower (p : ℚ)
  | gensetStartCoil
  | chargerSetpoint (idx : ℕ) (p : ℚ)
  deriving DecidableEq, Repr

/-- `EmsController::calculate_charger_demand` (ems_core.rs 266-281): sum the
cached `power` of every charger whose cached `charging` flag is set. -/
def chargerDemand (chargers : List ChargerStatus) : ℚ :=
  chargers.foldl (fun acc c => if c.charging then acc + c.power else acc) 0

/-- The active-charger count used at ems_core.rs 391-399 and 430-438: the
number of chargers whose cached `charging` flag is set. -/
def activeCount (chargers : List ChargerStatus) : ℕ :=
  (chargers.filter (fun c => c.charging)).length

/-- `EmsController::charge_battery` (ems_core.rs 341-350): when a PCS is
configured, set it to `Charging` and command the negated power. -/
def chargeBatteryCmds (pcsPresent : Bool) (p : ℚ) : List Cmd :=
  if pcsPresent then [.pcsSetMode .Charging, .pcsSetPower (-p)] else []

/-- `EmsController::discharge_battery` (ems_core.rs 359-368): when a PCS is
configured, set it to `Discharging` and command the power. -/
def dischargeBatteryCmds (pcsPresent : Bool) (p : ℚ) : List Cmd :=
  if pcsPresent then [.pcsSetMode .Discharging, .pcsSetPower p] else []

/-- `EmsController::start_generator` (ems_core.rs 374-381): when a generator
is configured, start its engine. -/
def startGeneratorCmds (gensetPresent : Bool) : List Cmd :=
  if gensetPresent then [.gensetStartCoil] else []

/-- `EmsController::reduce_charger_power` (ems_core.rs 390-416): count the
actively-charging chargers; if none, do nothing; otherwise divide `maxPower`
by the count, cap at `max_charger_power`, and write that setpoint to every
actively-charging charger. -/
def reduceChargerPowerCmds (chargers : List ChargerStatus) (maxChargerPower maxPower : ℚ) :
    List Cmd :=
  let n := activeCount chargers
  if n = 0 then []
  else
    let pp := min (maxPower / (n : ℚ)) maxChargerPower
    (List.range chargers.length).filterMap fun i =>
      if (chargers.getD i chargerStatusDefault).charging then
        some (.chargerSetpoint i pp)
      else none

/-- `EmsController::balance_power` (ems_core.rs 292-332): surplus path
charges the battery below 90 % SOC; deficit path discharges the battery
(above threshold + 5), starts the generator (at or below threshold), and
finally curtails chargers to `demand - remaining_deficit`. -/
def balancePower (cfg : EmsConfig) (pcsPresent gensetPresent : Bool)
    (chargers : List ChargerStatus) (available demand soc : ℚ) : List Cmd :=
  let deficit := demand - available
  if deficit ≤ 0 then
    let surplus := -deficit
    if soc < 90 ∧ surplus > 0 then chargeBatteryCmds pcsPresent (min surplus 50) else []
  else
    let discharging := soc > cfg.battery_soc_threshold + 5 ∧ deficit > 0
    let cmds1 :=
      if discharging then dischargeBatteryCmds pcsPresent (min deficit 50) else []
    let rem := if discharging then deficit - min deficit 50 else deficit
    let cmds2 :=
      if soc ≤ cfg.battery_soc_threshold ∧ rem > 0 then startGeneratorCmds gensetPresent
      else []
    let cmds3 :=
      if rem > 0 then reduceChargerPowerCmds chargers cfg.max_charger_power (demand - rem)
      else []
    cmds1 ++ cmds2 ++ cmds3

/-- `EmsController::read_device_statuses` (ems_core.rs 221-260): a failed
read contributes its default (PV and battery power 0, SOC 100, generator 0);
successes accumulate PV kW, capture SOC, battery power `current·voltage/1000`,
and `running ? power_output : 0`. -/
def readDeviceStatuses (pvReads : List (Except DevError PvStatus))
    (batteryRead : Option (Except DevError BatteryStatus))
    (gensetRead : Option (Except DevError GensetStatus)) : ℚ × ℚ × ℚ × ℚ :=
  let pv := pvReads.foldl
    (fun acc r => match r with | .ok st => acc + st.power / 1000 | .error _ => acc) (0 : ℚ)
  let socAndPower : ℚ × ℚ :=
    match batteryRead with
    | some (.ok st) => (st.soc, st.current * st.voltage / 1000)
    | some (.error _) => (100, 0)
    | none => (100, 0)
  let gen : ℚ :=
    match gensetRead with
    | some (.ok st) => if st.running then st.power_output else 0
    | some (.error _) => 0
    | none => 0
  (pv, socAndPower.1, socAndPower.2, gen)

/-- `EmsController::update_cached_status` (ems_core.rs 425-456): the snapshot
written at the end of a cycle. -/
def updateCachedStatus (pv_power battery_power generator_power charger_power : ℚ)
    (chargers : List ChargerStatus) (mode : EmsMode) : EmsStatus :=
  let total_generation := pv_power + generator_power
  let total_consumption := charger_power
  let power_balance := total_generation - total_consumption
  { total_generation, total_consumption, power_balance
    grid_power := 0
    battery_power, generator_power, pv_power, charger_power
    active_chargers := activeCount chargers
    system_mode := emsModeLabel mode
    system_healthy := true
    faults := [] }

/-- `EmsController::run_control_cycle` (ems_core.rs 194-215): skip when not
running; otherwise read devices, compute demand, balance, and write the
cached snapshot. Returns the snapshot visible afterwards and the commands
issued while balancing. -/
def runControlCycle (running : Bool) (mode : EmsMode) (cfg : EmsConfig)
    (pcsPresent gensetPresent : Bool)
    (pvReads : List (Except DevError PvStatus))
    (batteryRead : Option (Except DevError BatteryStatus))
    (gensetRead : Option (Except DevError GensetStatus))
    (chargers : List ChargerStatus) (prev : EmsStatus) : EmsStatus × List Cmd :=
  if running then
    let r := readDeviceStatuses pvReads batteryRead gensetRead
    let pv := r.1
    let soc := r.2.1
    let batteryPower := r.2.2.1
    let gen := r.2.2.2
    let demand := chargerDemand chargers
    let cmds := balancePower cfg pcsPresent gensetPresent chargers (pv + gen) demand soc
    (updateCachedStatus pv batteryPower gen demand chargers mode, cmds)
  else (prev, [])

/-! ## Theorems -/

/-- The element `getD` picks under a length bound is a member of the list. -/
lemma getD_mem_of_lt {l : List ChargerStatus} {i : ℕ} (h : i < l.length) :
    l.getD i chargerStatusDefault ∈ l := by
  rw [List.getD_eq_getElem l chargerStatusDefault h]
  exact List.getElem_mem h

/-- A charging charger in the list makes the active-charger count nonzero. -/
lemma activeCount_ne_zero {l : List ChargerStatus} {i : ℕ} (h : i < l.length)
    (hc : (l.getD i chargerStatusDefault).charging = true) : activeCount l ≠ 0 := by
  have hmem : l.getD i chargerStatusDefault ∈ l.filter (fun c => c.charging) :=
    List.mem_filter.mpr ⟨getD_mem_of_lt h, hc⟩
  exact (List.length_pos_of_mem hmem).ne'

/-- C1: for every control cycle that runs (controller running), the
`EmsStatus` snapshot written at the end of the cycle satisfies
`power_balance = total_generation - total_consumption` exactly, with
`total_generation = pv_power + generator_power` and
`total_consumption = charger_power`. -/
theorem ems_cycle_power_balance (mode : EmsMode) (cfg : EmsConfig)
    (pcsPresent gensetPresent : Bool) (pvReads : List (Except DevError PvStatus))
    (batteryRead : Option (Except DevError BatteryStatus))
    (gensetRead : Option (Except DevError GensetStatus))
    (chargers : List ChargerStatus) (prev : EmsStatus) :
    let st := (runControlCycle true mode cfg pcsPresent gensetPresent pvReads batteryRead
      gensetRead chargers prev).1
    st.power_balance = st.total_generation - st.total_consumption ∧
    st.total_generation = st.pv_power + st.generator_power ∧
    st.total_consumption = st.charger_power := by
  simp [runControlCycle, updateCachedStatus]

/-- C2: in a balancing cycle with positive deficit, (a) above
`soc_threshold + 5` the battery is commanded to discharge `min(deficit, 50)`
through the PCS; (b) at or below `soc_threshold` the generator is started;
(c) with deficit remaining, every actively-charging charger is written the
setpoint `(demand - remaining) / active_count` capped at
`max_charger_power`. -/
theorem balance_power_deficit_path (cfg : EmsConfig) (chargers : List ChargerStatus)
    (available demand soc : ℚ) (hd : 0 < demand - available) :
    (cfg.battery_soc_threshold + 5 < soc →
      Cmd.pcsSetMode .Discharging ∈ balancePower cfg true true chargers available demand soc ∧
      Cmd.pcsSetPower (min (demand - available) 50) ∈
        balancePower cfg true true chargers available demand soc) ∧
    (soc ≤ cfg.battery_soc_threshold →
      Cmd.gensetStartCoil ∈ balancePower cfg true true chargers available demand soc) ∧
    (∀ rem : ℚ,
      rem = (if cfg.battery_soc_threshold + 5 < soc then
          demand - available - min (demand - available) 50
        else demand - available) →
      0 < rem →
      ∀ i : ℕ, i < chargers.length →
        (chargers.getD i chargerStatusDefault).charging = true →
        Cmd.chargerSetpoint i
            (min ((demand - rem) / (activeCount chargers : ℚ)) cfg.max_charger_power) ∈
          balancePower cfg true true chargers available demand soc) := by
  refine ⟨?_, ?_, ?_⟩
  · intro hsoc
    constructor <;>
      simp [balancePower, dischargeBatteryCmds, not_le.mpr hd, hsoc, hd]
  · intro hsoc
    have hnot : ¬ (cfg.battery_soc_threshold + 5 < soc) := by linarith
    simp [balancePower, startGeneratorCmds, not_le.mpr hd, hnot, hsoc, hd]
  · intro rem hrem hrempos i hi hc
    have hne := activeCount_ne_zero hi hc
    by_cases hsoc : cfg.battery_soc_threshold + 5 < soc
    · rw [if_pos hsoc] at hrem
      subst hrem
      simp only [balancePower, gt_iff_lt, not_le.mpr hd, if_false, if_neg (not_le.mpr hd),
        hsoc, hd, and_true, true_and, if_true, if_pos hrempos]
      refine List.mem_append_right _ ?_
      simp only [reduceChargerPowerCmds, if_neg hne]
      exact List.mem_filterMap.mpr ⟨i, List.mem_range.mpr hi, by
        have hc' : (chargers[i]?.getD chargerStatusDefault).charging = true := by
          rw [← List.getD_eq_getElem?_getD]; exact hc
        simp [hc']⟩
    · rw [if_neg hsoc] at hrem
      subst hrem
      simp only [balancePower, gt_iff_lt, if_neg (not_le.mpr hd), hsoc, hd, false_and, if_false]
      refine List.mem_append_right _ ?_
      rw [if_pos trivial]
      simp only [reduceChargerPowerCmds, if_neg hne]
      exact List.mem_filterMap.mpr ⟨i, List.mem_range.mpr hi, by
        have hc' : (chargers[i]?.getD chargerStatusDefault).charging = true := by
          rw [← List.getD_eq_getElem?_getD]; exact hc
        simp [hc']⟩

/-- Witness for C2: with threshold 20, SOC 15, demand 30 kW against 28 kW
available, the generator start command is issued. -/
theorem balance_power_deficit_path_witness :
    Cmd.gensetStartCoil ∈
      balancePower ⟨20, 22, 15, 5⟩ true true [⟨true, 30, 400, 75, 25, 95, false, []⟩]
        28 30 15 :=
  (balance_power_deficit_path ⟨20, 22, 15, 5⟩ [⟨true, 30, 400, 75, 25, 95, false, []⟩]
    28 30 15 (by norm_num)).2.1 (by norm_num)

/-- C3 (failing evaluation): the S4 round trip
`BatteryStatus⟨55.5, 400.25, -12.34, 27.89, 80, 85⟩` decodes every field
within one quantum except `soc`: the packer multiplies the clamped SOC by
100 and casts to `u8`, so 5550 saturates at 255 and decodes to 2.55, which
is not within 0.01 of 55.5. -/
theorem battery_roundtrip_soc_saturates :
    unpack_battery_status (pack_battery_status ⟨55.5, 400.25, -12.34, 27.89, 80, 85⟩) =
      ⟨2.55, 400.25, -12.34, 27.89, 80, 85⟩ ∧ ¬ |(2.55 : ℚ) - 55.5| ≤ 0.01 := by
  constructor
  · norm_num [unpack_battery_status, pack_battery_status, toU8sat, toU16sat, toI16sat, satCast,
      ratTrunc, qclamp, u16be, i16be, u16of, i16of, batteryStatusDefault]
    simp
    norm_num
  · rw [abs_of_nonpos (by norm_num)]
    norm_num

/-- C4 (counterexample): a `ChargerStatus` with an empty fault-code list —
well within the claimed ≤ 2 bound and the clamp ranges — is rejected with
`InvalidData` rather than encoded. -/
theorem charger_pack_two_codes_rejected :
    pack_charger_status ⟨true, 10, 400, 16, 25, 95, false, []⟩ = .error .invalidData := by
  norm_num [pack_charger_status, packChargerBytes, u16be, i16be]

/-- C4 (amended): `pack_charger_status` returns `InvalidData` for every
status — the encoded payload is `12 + 2·min(len, 2)` bytes and so always
exceeds the 8-byte CAN limit; in particular a status with more than two
fault codes satisfies the claim's `InvalidData` disjunct. -/
theorem charger_pack_never_fits (s : ChargerStatus) :
    pack_charger_status s = .error .invalidData := by
  have hlen : 8 < (packChargerBytes s).length := by
    rcases hl : s.fault_codes with _ | ⟨a, t⟩
    · norm_num [packChargerBytes, u16be, i16be, hl]
    · rcases t with _ | ⟨b, t2⟩ <;> norm_num [packChargerBytes, u16be, i16be, hl]
  simp only [pack_charger_status]
  rw [if_pos hlen]

/-- C5 (failing evaluation): `PcsDevice::read_status` decodes the power
register as an unsigned value — register 65336 (the two's complement of
−200, i.e. −20.0 kW) is returned as +6533.6 kW, not −20 kW. -/
theorem pcs_read_decodes_power_unsigned :
    (pcsReadStatus (.ok [2, 65336]) pcsCacheInit).1 = .ok ⟨"Discharging", 6533.6⟩ ∧
    (6533.6 : ℚ) ≠ -20 := by
  constructor
  · norm_num [pcsReadStatus, pcsModeString]
  · norm_num

/-- C6 (failing evaluation): a 5-byte pack-status reply on id 0x101 and a
3-byte cell-status reply on id 0x104 are both answered with
`Ok(…::default())` — a silently default-populated status — instead of the
`InvalidData` error the claim requires. -/
theorem battery_short_frame_silent_default :
    batteryReadStatus (.ok ⟨0x101, [1, 2, 3, 4, 5]⟩) = .ok batteryStatusDefault ∧
    batteryCellReadStatus (.ok ⟨0x104, [9, 9, 9]⟩) = .ok batteryCellStatusDefault := by
  constructor <;> rfl

/-- C7 (counterexample): a successful battery read (id 0x101, SOC byte 80,
decoding to SOC 0.8 %) leaves the cached fields exactly as they were — the
battery device never writes its cache, so the cache does not equal the
status the read returned. -/
theorem battery_read_ignores_cache :
    (batteryReadStatusC (.ok ⟨0x101, [80, 0, 0, 0, 0, 0, 0, 0, 0, 0, 0]⟩) batteryCacheInit).2 =
      batteryCacheInit ∧
    (batteryReadStatusC (.ok ⟨0x101, [80, 0, 0, 0, 0, 0, 0, 0, 0, 0, 0]⟩) batteryCacheInit).1 =
      .ok ⟨0.8, 0, 0, 0, 0, 0⟩ ∧
    batteryCacheInit.soc ≠ (0.8 : ℚ) := by
  refine ⟨rfl, ?_, by norm_num [batteryCacheInit]⟩
  norm_num [batteryReadStatusC, batteryReadStatus, unpack_battery_status, u16of, i16of]

/-- C7 (amended): for the PV, generator and charger devices every successful
`read_status` updates the cache so that `get_cached_status` returns exactly
the status just read, and every failed read leaves the cache unchanged; the
PCS satisfies the same whenever its mode register is in 0..5 (an unknown
mode reads back as "Unknown" but is cached as `Standby`); the battery device
never modifies its cached fields on `read_status`. -/
theorem device_cache_contract :
    (∀ (r : Except DevError (List ℕ)) (c : PvCache) (st : PvStatus) (c' : PvCache),
        pvReadStatus r c = (.ok st, c') → pvGetCachedStatus c' = st) ∧
    (∀ (r : Except DevError (List ℕ)) (c : PvCache) (e : DevError) (c' : PvCache),
        pvReadStatus r c = (.error e, c') → c' = c) ∧
    (∀ (rc : Except DevError (List Bool)) (rr : Except DevError (List ℕ))
        (c : GensetCache) (st : GensetStatus) (c' : GensetCache),
        gensetReadStatus rc rr c = (.ok st, c') → gensetGetCachedStatus c' = st) ∧
    (∀ (rc : Except DevError (List Bool)) (rr : Except DevError (List ℕ))
        (c : GensetCache) (e : DevError) (c' : GensetCache),
        gensetReadStatus rc rr c = (.error e, c') → c' = c) ∧
    (∀ (r : Except DevError CanFrame) (c : ChargerCache) (st : ChargerStatus)
        (c' : ChargerCache),
        chargerReadStatus r c = (.ok st, c') → chargerGetCachedStatus c' = st) ∧
    (∀ (r : Except DevError CanFrame) (c : ChargerCache) (e : DevError) (c' : ChargerCache),
        chargerReadStatus r c = (.error e, c') → c' = c) ∧
    (∀ (regs : List ℕ) (c : PcsCache) (st : PcsStatus) (c' : PcsCache),
        regs.getD 0 0 ≤ 5 →
        pcsReadStatus (.ok regs) c = (.ok st, c') → pcsGetCachedStatus c' = st) ∧
    (∀ (r : Except DevError (List ℕ)) (c : PcsCache) (e : DevError) (c' : PcsCache),
        pcsReadStatus r c = (.error e, c') → c' = c) ∧
    (∀ (r : Except DevError CanFrame) (c : BatteryCache), (batteryReadStatusC r c).2 = c) := by
  refine ⟨?_, ?_, ?_, ?_, ?_, ?_, ?_, ?_, ?_⟩
  · rintro r c st c' h
    cases r with
    | error e => simp [pvReadStatus] at h
    | ok regs =>
      simp only [pvReadStatus, Prod.mk.injEq, Except.ok.injEq] at h
      obtain ⟨hst, hc⟩ := h
      subst hst
      subst hc
      rfl
  · rintro r c e c' h
    cases r with
    | error e2 =>
      simp only [pvReadStatus, Prod.mk.injEq, Except.error.injEq] at h
      exact h.2.symm
    | ok regs => simp [pvReadStatus] at h
  · rintro rc rr c st c' h
    cases rc with
    | error e => simp [gensetReadStatus] at h
    | ok coils =>
      cases rr with
      | error e => simp [gensetReadStatus] at h
      | ok regs =>
        simp only [gensetReadStatus, Prod.mk.injEq, Except.ok.injEq] at h
        obtain ⟨hst, hc⟩ := h
        subst hst
        subst hc
        rfl
  · rintro rc rr c e c' h
    cases rc with
    | error e2 =>
      simp only [gensetReadStatus, Prod.mk.injEq, Except.error.injEq] at h
      exact h.2.symm
    | ok coils =>
      cases rr with
      | error e2 =>
        simp only [gensetReadStatus, Prod.mk.injEq, Except.error.injEq] at h
        exact h.2.symm
      | ok regs => simp [gensetReadStatus] at h
  · rintro r c st c' h
    cases r with
    | error e => simp [chargerReadStatus] at h
    | ok f =>
      by_cases hid : f.id = 0x201
      · rw [chargerReadStatus, if_pos hid] at h
        cases hun : unpack_charger_status f.data with
        | none => rw [hun] at h; simp at h
        | some st0 =>
          rw [hun] at h
          simp only [Prod.mk.injEq, Except.ok.injEq] at h
          obtain ⟨hst, hc⟩ := h
          subst hst
          subst hc
          rfl
      · rw [chargerReadStatus, if_neg hid] at h
        simp at h
  · rintro r c e c' h
    cases r with
    | error e2 =>
      simp only [chargerReadStatus, Prod.mk.injEq, Except.error.injEq] at h
      exact h.2.symm
    | ok f =>
      by_cases hid : f.id = 0x201
      · rw [chargerReadStatus, if_pos hid] at h
        cases hun : unpack_charger_status f.data with
        | none =>
          rw [hun] at h
          simp only [Prod.mk.injEq, Except.error.injEq] at h
          exact h.2.symm
        | some st0 => rw [hun] at h; simp at h
      · rw [chargerReadStatus, if_neg hid] at h
        simp only [Prod.mk.injEq, Except.error.injEq] at h
        exact h.2.symm
  · rintro regs c st c' hm h
    simp only [pcsReadStatus, Prod.mk.injEq, Except.ok.injEq] at h
    obtain ⟨hst, hc⟩ := h
    subst hst
    subst hc
    simp only [pcsGetCachedStatus]
    set m := regs.getD 0 0 with hmdef
    interval_cases m <;> rfl
  · rintro r c e c' h
    cases r with
    | error e2 =>
      simp only [pcsReadStatus, Prod.mk.injEq, Except.error.injEq] at h
      exact h.2.symm
    | ok regs => simp [pcsReadStatus] at h
  · rintro r c
    rfl

/-- Witness for C7: the PCS with register frame [1, 2] (mode `Charging`,
0.2 kW) caches a status that `get_cached_status` reproduces. -/
theorem device_cache_contract_witness :
    pcsGetCachedStatus ⟨0.2, 0, 0, 0, 0, 0, 0, 0, .Charging, false, []⟩ =
      ⟨"Charging", 0.2⟩ :=
  device_cache_contract.2.2.2.2.2.2.1 [1, 2] pcsCacheInit ⟨"Charging", 0.2⟩
    ⟨0.2, 0, 0, 0, 0, 0, 0, 0, .Charging, false, []⟩ (by norm_num)
    (by norm_num [pcsReadStatus, pcsModeString, strToPcsMode]; decide)

/-- C8 (counterexample): at the claimed clamp-range endpoint 10000 W the
register value written is 65535 — the `u16` cast saturates — not the
claimed `clamp(10000, 0, 10000) × 10 = 100000`. -/
theorem pv_setpoint_clamp_range_counterexample :
    (pvSetPowerSetpoint 10000).2 = 65535 ∧ (65535 : ℕ) ≠ 100000 := by
  constructor
  · norm_num [pvSetPowerSetpoint, toU16sat, satCast, ratTrunc, qclamp]
    decide
  · norm_num

/-- C8 (amended): `set_power_setpoint` writes register 11 with
`clamp(p, 0, 10000) × 10` truncated to an integer whenever `p ≤ 6553.5` W;
above that the `u16` cast saturates and the register value is 65535. -/
theorem pv_setpoint_register_saturates (p : ℚ) :
    (pvSetPowerSetpoint p).1 = 11 ∧
    (p ≤ 6553.5 → ((pvSetPowerSetpoint p).2 : ℤ) = ratTrunc (qclamp 0 10000 p * 10)) ∧
    (6553.5 < p → (pvSetPowerSetpoint p).2 = 65535) := by
  refine ⟨rfl, ?_, ?_⟩
  · intro hp
    have h0 : (0 : ℚ) ≤ qclamp 0 10000 p := le_min (by norm_num) (le_max_left 0 p)
    have hq : qclamp 0 10000 p ≤ 6553.5 :=
      (min_le_right _ _).trans (max_le (by norm_num) hp)
    have h0' : (0 : ℚ) ≤ qclamp 0 10000 p * 10 := by linarith
    have hub : qclamp 0 10000 p * 10 ≤ 65535 := by linarith
    have htr : ratTrunc (qclamp 0 10000 p * 10) = Int.floor (qclamp 0 10000 p * 10) := by
      unfold ratTrunc
      rw [if_neg (not_lt.mpr h0')]
    have hfl0 : 0 ≤ Int.floor (qclamp 0 10000 p * 10) := Int.floor_nonneg.mpr h0'
    have hfl1 : Int.floor (qclamp 0 10000 p * 10) ≤ 65535 := by
      have h := (Int.floor_le (qclamp 0 10000 p * 10)).trans hub
      exact_mod_cast h
    show ((toU16sat (qclamp 0 10000 p * 10) : ℕ) : ℤ) = ratTrunc (qclamp 0 10000 p * 10)
    unfold toU16sat satCast
    rw [htr, min_eq_right hfl1, max_eq_right hfl0, Int.toNat_of_nonneg hfl0]
  · intro hp
    have hmax : max (0 : ℚ) p = p := max_eq_right (by linarith)
    have hq : (6553.5 : ℚ) < qclamp 0 10000 p := by
      unfold qclamp
      rw [hmax]
      exact lt_min (by norm_num) hp
    have h0' : (0 : ℚ) ≤ qclamp 0 10000 p * 10 := by linarith
    have hge : (65535 : ℚ) ≤ qclamp 0 10000 p * 10 := by linarith
    have htr : ratTrunc (qclamp 0 10000 p * 10) = Int.floor (qclamp 0 10000 p * 10) := by
      unfold ratTrunc
      rw [if_neg (not_lt.mpr h0')]
    have hfl : (65535 : ℤ) ≤ Int.floor (qclamp 0 10000 p * 10) :=
      Int.le_floor.mpr (by exact_mod_cast hge)
    show toU16sat (qclamp 0 10000 p * 10) = 65535
    unfold toU16sat satCast
    rw [htr, min_eq_left hfl]
    decide

/-- Witness for C8: at 100 W, comfortably below the saturation point, the
written register value is exactly the truncated scaled clamp. -/
theorem pv_setpoint_register_saturates_witness :
    ((pvSetPowerSetpoint 100).2 : ℤ) = ratTrunc (qclamp 0 10000 (100 : ℚ) * 10) :=
  (pv_setpoint_register_saturates 100).2.1 (by norm_num)

/-- The battery pack encoding is always exactly 11 bytes. -/
lemma pack_battery_length (s : BatteryStatus) : (pack_battery_status s).length = 11 := rfl

/-- C9: for every `BatteryStatus`, `write_status` on a connected device
returns `InvalidData` and sends no CAN frame, because the packed payload is
unconditionally 11 bytes and the frame-size check rejects anything over 8. -/
theorem battery_write_always_invalid (s : BatteryStatus) :
    batteryWriteStatus true s = .error .invalidData := by
  simp [batteryWriteStatus, pack_battery_length]

/-- C10: a successful `start_engine` sets only the cached `running` flag to
true and a successful `stop_engine` sets it to false; every other cached
field (power, fuel, voltage, current, frequency, engine hours, temperature)
is left untouched. -/
theorem genset_engine_cache_update (c : GensetCache) :
    (gensetStartEngine (.ok ()) c).1 = .ok () ∧
    (gensetStartEngine (.ok ()) c).2.running = true ∧
    (gensetStartEngine (.ok ()) c).2.power_output = c.power_output ∧
    (gensetStartEngine (.ok ()) c).2.fuel_level = c.fuel_level ∧
    (gensetStartEngine (.ok ()) c).2.voltage = c.voltage ∧
    (gensetStartEngine (.ok ()) c).2.current = c.current ∧
    (gensetStartEngine (.ok ()) c).2.frequency = c.frequency ∧
    (gensetStartEngine (.ok ()) c).2.engine_hours = c.engine_hours ∧
    (gensetStartEngine (.ok ()) c).2.temperature = c.temperature ∧
    (gensetStopEngine (.ok ()) c).1 = .ok () ∧
    (gensetStopEngine (.ok ()) c).2.running = false ∧
    (gensetStopEngine (.ok ()) c).2.power_output = c.power_output ∧
    (gensetStopEngine (.ok ()) c).2.fuel_level = c.fuel_level ∧
    (gensetStopEngine (.ok ()) c).2.voltage = c.voltage ∧
    (gensetStopEngine (.ok ()) c).2.current = c.current ∧
    (gensetStopEngine (.ok ()) c).2.frequency = c.frequency ∧
    (gensetStopEngine (.ok ()) c).2.engine_hours = c.engine_hours ∧
    (gensetStopEngine (.ok ()) c).2.temperature = c.temperature := by
  simp [gensetStartEngine, gensetStopEngine]

end ChargeApp
